import Mathlib

/-!
# Verification of the ISTAT FundamentalData pipeline

A shallow embedding of the three pipeline stages of the repository
(`IstatMappingBuilder`, `IstatConstraintsBuilder`, `IstatSeriesExtractor`)
and proofs about them.

Modelling conventions:
* Python dictionaries become association lists `List (K × V)`; insertion
  keeps the position of an existing key (as CPython dicts do) and lookup
  returns the first (unique) binding.
* XML attribute access `elem.attrib.get(k)` returns `Option String`
  (`none` models Python `None` for an absent attribute); element text
  `elem.text` is likewise `Option String`.
* Python truthiness on such values: `none` and `some ""` are falsy.
* `float(...)` is modelled by an executable parser `pyFloatParse` over the
  CPython accepted grammar (optional sign, digit runs with single
  underscores between digits, optional point and exponent, `inf`,
  `infinity`, `nan`, surrounding ASCII whitespace); numeric values are
  represented exactly as rationals (the binary rounding of machine doubles
  is abstracted away), with distinguished constructors for the infinities
  and nan.
* Wall-clock fields (`generated_at`) and filesystem/network side effects
  are outside the model: each function takes the already-parsed remote
  response as an argument and returns its result (or an `Except` error
  where the source raises).
-/

/-- First-match lookup in an association list, as Python `d.get(k)`. -/
def pyLookup {K V : Type} [DecidableEq K] : List (K × V) → K → Option V
  | [], _ => none
  | (k', v) :: t, k => if k' = k then some v else pyLookup t k

/-- Insertion as Python `d[k] = v`: replace the value at an existing key in
place, otherwise append the new binding. -/
def pyInsert {K V : Type} [DecidableEq K] : List (K × V) → K → V → List (K × V)
  | [], k, v => [(k, v)]
  | (k', v') :: t, k, v => if k' = k then (k, v) :: t else (k', v') :: pyInsert t k v

/-- Python truthiness of an optional string: `None` and the empty string
are falsy. -/
def pyTruthy : Option String → Bool
  | none => false
  | some s => s ≠ ""

/-- Python `f"{x}"` on an optional string: `None` prints as `"None"`. -/
def pyShow : Option String → String
  | none => "None"
  | some s => s

/-- Code-point lexicographic comparison of character lists. -/
def charsLe : List Char → List Char → Bool
  | [], _ => true
  | _ :: _, [] => false
  | c :: cs, d :: ds =>
    if c.val < d.val then true
    else if d.val < c.val then false
    else charsLe cs ds

/-- Python string comparison, code-point lexicographic (`a <= b`). -/
def strLeB (a b : String) : Bool := charsLe a.toList b.toList

/-- The value stored for one observation: an exact rational for a parsed
finite float, the special float values, or the raw text fallback. -/
inductive PVal : Type where
  | num (q : ℚ)
  | posInf
  | negInf
  | nanv
  | str (s : String)
  deriving DecidableEq, Repr

/-- ASCII whitespace accepted by CPython float parsing. -/
def isPySpace (c : Char) : Bool :=
  c = ' ' || c = '\t' || c = '\n' || c = '\r' || c.val == 11 || c.val == 12

/-- Strip leading and trailing whitespace. -/
def stripPy (cs : List Char) : List Char :=
  ((cs.dropWhile isPySpace).reverse.dropWhile isPySpace).reverse

/-- Collect further digits of a digit run, allowing a single underscore
between two digits; returns the digits (in order) and the unconsumed rest. -/
def digitsLoop : List Char → List Char → (List Char × List Char)
  | acc, [] => (acc.reverse, [])
  | acc, [c] => if c.isDigit then ((c :: acc).reverse, []) else (acc.reverse, [c])
  | acc, c :: d :: rest =>
    if c.isDigit then digitsLoop (c :: acc) (d :: rest)
    else if c = '_' && d.isDigit then digitsLoop (d :: acc) rest
    else (acc.reverse, c :: d :: rest)

/-- A digit run must start with a digit. -/
def grabUDigits (cs : List Char) : Option (List Char × List Char) :=
  match cs with
  | c :: rest => if c.isDigit then some (digitsLoop [c] rest) else none
  | [] => none

/-- Numeric value of a digit list. -/
def digitsVal (ds : List Char) : Nat :=
  ds.foldl (fun n c => 10 * n + (c.toNat - 48)) 0

/-- Optional sign; returns whether the number is negated and the rest. -/
def parseSign : List Char → (Bool × List Char)
  | '+' :: rest => (false, rest)
  | '-' :: rest => (true, rest)
  | cs => (false, cs)

/-- Exact rational value of mantissa digits, fraction digits and a signed
decimal exponent. -/
def mkDecVal (ipart fpart : List Char) (eneg : Bool) (eN : Nat) : ℚ :=
  let m : Int := (digitsVal (ipart ++ fpart) : Int)
  if eneg then mkRat m (10 ^ (fpart.length + eN))
  else mkRat (m * 10 ^ eN) (10 ^ fpart.length)

/-- Parse the unsigned decimal body (digits, optional point, optional
exponent); fails when no digit is present or characters are left over. -/
def parseDecimal (cs : List Char) : Option ℚ :=
  let p1 : List Char × List Char :=
    match grabUDigits cs with
    | some r => r
    | none => ([], cs)
  let p2 : List Char × List Char :=
    match p1.2 with
    | '.' :: r =>
      (match grabUDigits r with
       | some r2 => r2
       | none => ([], r))
    | _ => ([], p1.2)
  if p1.1 = [] ∧ p2.1 = [] then none
  else
    match p2.2 with
    | [] => some (mkDecVal p1.1 p2.1 false 0)
    | c :: r =>
      if c = 'e' ∨ c = 'E' then
        let sg := parseSign r
        match grabUDigits sg.2 with
        | some (eds, r3) =>
          if r3 = [] then some (mkDecVal p1.1 p2.1 sg.1 (digitsVal eds)) else none
        | none => none
      else none

/-- Model of CPython `float(s)` over ASCII input: `some` on the accepted
grammar with the exact value, `none` where `float` raises `ValueError`.
Never returns a `PVal.str`. -/
def pyFloatParse (s : String) : Option PVal :=
  let cs := stripPy s.toList
  let sg := parseSign cs
  let low := sg.2.map Char.toLower
  if low = "inf".toList ∨ low = "infinity".toList then
    some (if sg.1 then PVal.negInf else PVal.posInf)
  else if low = "nan".toList then some PVal.nanv
  else
    match parseDecimal sg.2 with
    | some q => some (PVal.num (if sg.1 then -q else q))
    | none => none

example : pyFloatParse "10.5" = some (PVal.num (mkRat 21 2)) := by decide
example : pyFloatParse "9.1" = some (PVal.num (mkRat 91 10)) := by decide
example : pyFloatParse "-1e-2" = some (PVal.num (mkRat (-1) 100)) := by decide
example : pyFloatParse "1_0" = some (PVal.num (mkRat 10 1)) := by decide
example : pyFloatParse "abc" = none := by decide
example : pyFloatParse "" = none := by decide
example : pyFloatParse " inf " = some PVal.posInf := by decide

/-! ## Data model of the Constraints Document

The schema of the JSON artifact written by
`IstatConstraintsBuilder.build_constraints_overview` and read back by
`IstatSeriesExtractor` (the `generated_at` wall-clock field is omitted
from the model). Language maps carry `Option String` values because an
XML element with no text yields Python `None`. -/

/-- A structure reference `{agency_id, id, version}`; each field comes from
`attrib.get` and may be absent. -/
structure StructRef : Type where
  agency_id : Option String
  id : Option String
  version : Option String
  deriving DecidableEq, Repr

/-- `dataset_info` block: id, language→name map (the language attribute of
a dataflow name has no default, so keys may be `None`), and the structure
reference (`none` models the empty placeholder dict). -/
structure DatasetInfo : Type where
  id : String
  names : List (Option String × Option String)
  structure_reference : Option StructRef
  deriving DecidableEq, Repr

/-- Entry for one code inside a constraints-document dimension: only a
`name` language map. -/
structure ValueEntry : Type where
  name : List (String × Option String)
  deriving DecidableEq, Repr

/-- One dimension of the Constraints Document. -/
structure DimEntry : Type where
  id : String
  values : List (String × ValueEntry)
  deriving DecidableEq, Repr

/-- The Constraints Document. -/
structure Constraints : Type where
  dataset_info : DatasetInfo
  dimensions : List (String × DimEntry)
  deriving DecidableEq, Repr

/-! ## IstatSeriesExtractor -/

/-- `IstatSeriesExtractor.validate_constraints` (ISTATDataextractorfromdatasetID.py
lines 58-65), composed with the constructor flow: loading succeeds and the
extractor is usable only when the declared dataset id matches. -/
def validate_constraints (dataset_id : String) (cns : Constraints) : Except String Unit :=
  if dataset_id ≠ cns.dataset_info.id then
    Except.error "Constraints file mismatch"
  else Except.ok ()

/-- The constructor of `IstatSeriesExtractor` after the constraints file is
loaded: validation must pass before any extraction can run. -/
def extractorInit (dataset_id : String) (cns : Constraints) : Except String Constraints :=
  match validate_constraints dataset_id cns with
  | Except.error e => Except.error e
  | Except.ok _ => Except.ok cns

/-- `IstatSeriesExtractor.get_value_description` (lines 89-113).
`concept` and `code` come from `attrib.get` and may be `None`. The chain
`names.get("en") or names.get("it") or names.get("default", code)` uses
Python truthiness: an absent key, a null value and the empty string all
fall through. The function is total: every failure path returns the raw
code. -/
def get_value_description (cns : Constraints) (concept code : Option String) :
    Option String :=
  match concept with
  | none => code
  | some c =>
    match pyLookup cns.dimensions c with
    | none => code
    | some di =>
      let names : List (String × Option String) :=
        match code with
        | none => []
        | some cd =>
          match pyLookup di.values cd with
          | none => []
          | some vi => vi.name
      let en : Option String := (pyLookup names "en").join
      let it : Option String := (pyLookup names "it").join
      if pyTruthy en then en
      else if pyTruthy it then it
      else
        match pyLookup names "default" with
        | some v => v
        | none => code

/-- Metadata entry for one series-key value (lines 140-143). -/
structure MetaInfo : Type where
  code : Option String
  description : Option String
  deriving DecidableEq, Repr

/-- One `generic:Value` element of a series key: `id` and `value`
attributes. -/
structure SKValue : Type where
  id : Option String
  value : Option String
  deriving DecidableEq, Repr

/-- One `generic:Obs` element. `timeDim` is the
`ObsDimension[@id="TIME_PERIOD"]` child (if present) with its `value`
attribute (if present); `obsValue` likewise for `ObsValue`. -/
structure ObsElem : Type where
  timeDim : Option (Option String)
  obsValue : Option (Option String)
  deriving DecidableEq, Repr

/-- One `generic:Series` element of the data response. -/
structure SeriesElem : Type where
  seriesKey : Option (List SKValue)
  obs : List ObsElem
  deriving DecidableEq, Repr

/-- An observation of a Series Record. `time_period` keeps the raw
attribute value: the key is written whenever the time element is present,
even when its `value` attribute is absent (Python stores `None`). -/
structure Obs : Type where
  time_period : Option String
  value : PVal
  deriving DecidableEq, Repr

/-- A Series Record (the `generated_at` field is omitted). -/
structure SeriesData : Type where
  dataset_info : DatasetInfo
  metadata : List (Option String × MetaInfo)
  observations : List Obs
  deriving DecidableEq, Repr

/-- Lines 159-162: parse the raw value text as a float, keeping the text
verbatim when parsing fails. -/
def storeValue (raw : String) : PVal :=
  (pyFloatParse raw).getD (PVal.str raw)

/-- Loop body of the observation extraction (lines 146-166): the
`time_period` key is set iff the time element is present; the `value` key
is set iff the `ObsValue` element is present and its `value` attribute is
truthy; the observation is kept iff both keys are set. -/
def extractObs (o : ObsElem) : Option Obs :=
  let v : Option String :=
    match o.obsValue with
    | some (some raw) => if raw ≠ "" then some raw else none
    | _ => none
  match o.timeDim, v with
  | some tp, some raw => some { time_period := tp, value := storeValue raw }
  | _, _ => none

/-- The list-sort of line 170, `sort(key=lambda x: x.get("time_period", ""))`.
Every kept observation has the `time_period` key, so the key function
returns the stored value: Python `None` when the attribute was absent.
Comparing `None` against anything raises `TypeError`, and a sort of two or
more elements compares every element at least once, so the sort raises
exactly when the list has length at least two and some key is `None`;
otherwise it stably sorts ascending by the string key. -/
def pySortObs (l : List Obs) : Except Unit (List Obs) :=
  if l.length ≥ 2 ∧ l.any (fun o => o.time_period.isNone) then Except.error ()
  else Except.ok (l.mergeSort (fun a b =>
    strLeB (a.time_period.getD "") (b.time_period.getD "")))

/-- `IstatSeriesExtractor.extract_series_key` (lines 115-175). Builds the
metadata map from the series key (Python dict insertion order), extracts
and filters the observations, and sorts them when nonempty; an exception
inside (only the sort can raise in the model) propagates to the caller. -/
def extract_series_key (dataset_id : String) (cns : Constraints) (e : SeriesElem) :
    Except Unit SeriesData :=
  let md : List (Option String × MetaInfo) :=
    match e.seriesKey with
    | none => []
    | some vs =>
      vs.foldl (fun acc v =>
        pyInsert acc v.id
          { code := v.value, description := get_value_description cns v.id v.value }) []
  let kept := e.obs.filterMap extractObs
  match (if kept.isEmpty then Except.ok kept else pySortObs kept :
      Except Unit (List Obs)) with
  | Except.error e => Except.error e
  | Except.ok sorted =>
    Except.ok
      { dataset_info :=
          { id := dataset_id
            names := cns.dataset_info.names
            structure_reference := cns.dataset_info.structure_reference }
        metadata := md
        observations := sorted }

/-- Filename construction (lines 201-206): `series_dataset_<id>` followed by
one `<concept>-<code>` part per metadata entry in insertion order. -/
def mkFilename (dataset_id : String) (md : List (Option String × MetaInfo)) : String :=
  let parts := ("dataset_" ++ dataset_id) ::
    md.map (fun p => pyShow p.1 ++ "-" ++ pyShow p.2.code)
  "series_" ++ String.intercalate "_" parts ++ ".json"

/-- `IstatSeriesExtractor.process_series` (lines 177-223): per series,
extract (a raised exception skips the series), discard when no
observations survive, otherwise persist under the derived filename.
The returned list models the sequence of file writes. -/
def process_series (dataset_id : String) (cns : Constraints) (root : List SeriesElem) :
    List (String × SeriesData) :=
  root.filterMap fun e =>
    match extract_series_key dataset_id cns e with
    | Except.error _ => none
    | Except.ok sd =>
      if sd.observations.isEmpty then none
      else some (mkFilename dataset_id sd.metadata, sd)

/-! ## IstatMappingBuilder (IstatMapping.py)

Each function takes the already-parsed XML response it would fetch. -/

/-- Attributes of a `Ref` element. -/
structure RefAttrs : Type where
  agencyID : Option String
  id : Option String
  version : Option String
  deriving DecidableEq, Repr

/-- The `common:Structure` element of a data response, with its optional
`Ref` child. -/
structure StructureElem : Type where
  ref : Option RefAttrs
  deriving DecidableEq, Repr

/-- The data-endpoint response as far as `get_structure_from_data` reads
it: the optional `common:Structure` element. -/
structure DataResponse : Type where
  struct : Option StructureElem
  deriving DecidableEq, Repr

/-- `DataStructureInfo` dataclass (IstatMapping.py lines 21-25); fields
come from `attrib.get` and may be `None`. -/
structure DataStructureInfo : Type where
  agency_id : Option String
  structure_id : Option String
  version : Option String
  deriving DecidableEq, Repr

/-- `IstatMappingBuilder.get_structure_from_data` (lines 58-81): raises
`ValueError` when the `Structure` element or its `Ref` child is missing,
otherwise reads the three reference attributes. -/
def get_structure_from_data (r : DataResponse) : Except String DataStructureInfo :=
  match r.struct with
  | none => Except.error "Structure element not found in data response"
  | some se =>
    match se.ref with
    | none => Except.error "Ref element not found in Structure"
    | some ref =>
      Except.ok { agency_id := ref.agencyID, structure_id := ref.id, version := ref.version }

/-- One `structure:Dimension` element: its `id` attribute and the optional
`Enumeration/Ref` child. -/
structure DSDim : Type where
  id : Option String
  enumRef : Option RefAttrs
  deriving DecidableEq, Repr

/-- The datastructure-endpoint response: the dimension elements. -/
structure DSResponse : Type where
  dimensions : List DSDim
  deriving DecidableEq, Repr

/-- `CodelistRef` dataclass (lines 27-31); `version` defaults to `"1.0"`
and `agency_id` to the owning agency when the `Ref` omits them. -/
structure CodelistRef : Type where
  agency_id : Option String
  id : Option String
  version : String
  deriving DecidableEq, Repr

/-- `IstatMappingBuilder.get_dimension_codelist_refs` (lines 83-111): a
dimension with a falsy `id` is skipped; a dimension whose
`Enumeration/Ref` child is absent is skipped silently; no error is raised
on either. -/
def get_dimension_codelist_refs (si : DataStructureInfo) (r : DSResponse) :
    List (String × CodelistRef) :=
  r.dimensions.foldl (fun acc dim =>
    match dim.id with
    | none => acc
    | some did =>
      if did = "" then acc
      else
        match dim.enumRef with
        | none => acc
        | some er =>
          pyInsert acc did
            { agency_id := (match er.agencyID with
                            | some a => some a
                            | none => si.agency_id)
              id := er.id
              version := er.version.getD "1.0" }) []

/-- A `common:Name` or `common:Description` element: optional `xml:lang`
attribute and optional text. -/
structure NameElem : Type where
  lang : Option String
  text : Option String
  deriving DecidableEq, Repr

/-- One `structure:Code` element of a codelist response. -/
structure CodeElem : Type where
  id : Option String
  names : List NameElem
  descriptions : List NameElem
  deriving DecidableEq, Repr

/-- The codelist-endpoint response. -/
structure CLResponse : Type where
  names : List NameElem
  codes : List CodeElem
  deriving DecidableEq, Repr

/-- Language map built with the `"default"` key for a missing `xml:lang`
attribute (lines 127-129 and 142-150). -/
def langMap (ns : List NameElem) : List (String × Option String) :=
  ns.foldl (fun acc n => pyInsert acc (n.lang.getD "default") n.text) []

/-- The `values[code_id]` entry of a codelist: name and description
language maps. -/
structure CodeValue : Type where
  name : List (String × Option String)
  description : List (String × Option String)
  deriving DecidableEq, Repr

/-- Result of `get_codelist_values`: the codelist-level info (only the
name map is ever filled; the description map stays empty) and the code
entries. -/
structure CLData : Type where
  codelist_name : List (String × Option String)
  codelist_description : List (String × Option String)
  values : List (String × CodeValue)
  deriving DecidableEq, Repr

/-- `IstatMappingBuilder.get_codelist_values` (lines 113-158): a code with
a falsy `id` is skipped silently; no error is raised. -/
def get_codelist_values (r : CLResponse) : CLData :=
  { codelist_name := langMap r.names
    codelist_description := []
    values := r.codes.foldl (fun acc code =>
      match code.id with
      | none => acc
      | some cid =>
        if cid = "" then acc
        else pyInsert acc cid
          { name := langMap code.names, description := langMap code.descriptions }) [] }

/-- One dimension entry of the Mapping Document (lines 190-199). -/
structure MappingDim : Type where
  codelist_id : Option String
  codelist_agency : Option String
  codelist_version : String
  codelist_name : List (String × Option String)
  codelist_description : List (String × Option String)
  values : List (String × CodeValue)
  deriving DecidableEq, Repr

/-- The Mapping Document (`generated_at` omitted). -/
structure Mapping : Type where
  dataset_id : String
  struct : DataStructureInfo
  dimensions : List (String × MappingDim)
  deriving DecidableEq, Repr

/-- `IstatMappingBuilder.build_mapping` (lines 160-211). `fetchCl` stands
for the codelist endpoint, keyed by the agency and id of the reference as
in the fetched URL. The only error path is the missing structure
reference propagated from `get_structure_from_data`. -/
def build_mapping (dataset_id : String) (dresp : DataResponse) (dsresp : DSResponse)
    (fetchCl : Option String → Option String → CLResponse) : Except String Mapping :=
  match get_structure_from_data dresp with
  | Except.error e => Except.error e
  | Except.ok si =>
    let refs := get_dimension_codelist_refs si dsresp
    let dims := refs.foldl (fun acc p =>
      let cd := get_codelist_values (fetchCl p.2.agency_id p.2.id)
      pyInsert acc p.1
        { codelist_id := p.2.id
          codelist_agency := p.2.agency_id
          codelist_version := p.2.version
          codelist_name := cd.codelist_name
          codelist_description := cd.codelist_description
          values := cd.values }) []
    Except.ok { dataset_id := dataset_id, struct := si, dimensions := dims }

/-! ## IstatConstraintsBuilder (ISTATavailableconstraintsbuilder.py) -/

/-- The `structure:Dataflow` element: name elements and the optional
`Structure/Ref` child. -/
structure DataflowElem : Type where
  names : List NameElem
  structRef : Option RefAttrs
  deriving DecidableEq, Repr

/-- The dataflow-endpoint response. -/
structure DataflowResponse : Type where
  dataflow : Option DataflowElem
  deriving DecidableEq, Repr

/-- `IstatConstraintsBuilder.get_dataflow_info` (lines 77-108). The
language attribute is read without a default here, so a name with no
`xml:lang` is keyed by `None`. -/
def get_dataflow_info (dataset_id : String) (r : DataflowResponse) : DatasetInfo :=
  match r.dataflow with
  | none => { id := dataset_id, names := [], structure_reference := none }
  | some df =>
    { id := dataset_id
      names := df.names.foldl (fun acc n => pyInsert acc n.lang n.text) []
      structure_reference :=
        match df.structRef with
        | none => none
        | some sr => some { agency_id := sr.agencyID, id := sr.id, version := sr.version } }

/-- One `common:KeyValue` element of the constraint region: its `id`
attribute and the text of its `common:Value` children. -/
structure KeyValueElem : Type where
  id : Option String
  values : List (Option String)
  deriving DecidableEq, Repr

/-- The availableconstraint-endpoint response: the optional
`structure:CubeRegion` with its `KeyValue` elements. -/
structure AvailResponse : Type where
  cubeRegion : Option (List KeyValueElem)
  deriving DecidableEq, Repr

/-- `IstatConstraintsBuilder.get_available_constraints` (lines 46-75).
A missing `CubeRegion` is logged and yields the empty dict without
raising; a `KeyValue` with falsy `id` is skipped; only truthy value texts
are collected. -/
def get_available_constraints (r : AvailResponse) : List (String × List String) :=
  match r.cubeRegion with
  | none => []
  | some kvs =>
    kvs.foldl (fun acc kv =>
      match kv.id with
      | none => acc
      | some did =>
        if did = "" then acc
        else
          pyInsert acc did
            (kv.values.filterMap (fun t =>
              match t with
              | some s => if s ≠ "" then some s else none
              | none => none))) []

/-- Label chosen for one (dimension, code) pair (lines 151-163): the
mapping entry's name map when the pair is present in the Mapping
Document, else the synthesized `{"default": code}`. A present entry is a
dict with both `name` and `description` keys, hence truthy, and its
`name` key is present, so `value_info.get("name", ...)` returns its name
map. -/
def overview_name (mapping : Mapping) (dim v : String) : List (String × Option String) :=
  match pyLookup mapping.dimensions dim with
  | some dm =>
    match pyLookup dm.values v with
    | some cv => cv.name
    | none => [("default", some v)]
  | none => [("default", some v)]

/-- The overview entry built for one constrained dimension
(lines 146-163). -/
def overview_dim (mapping : Mapping) (dim : String) (codes : List String) : DimEntry :=
  { id := dim
    values := codes.foldl (fun vacc v =>
      pyInsert vacc v { name := overview_name mapping dim v }) [] }

/-- `IstatConstraintsBuilder.build_constraints_overview` (lines 120-175):
always returns an overview with the `dataset_info` block; one dimension
entry per available constraint. -/
def build_constraints_overview (dataset_id : String) (dfresp : DataflowResponse)
    (availresp : AvailResponse) (mapping : Mapping) : Constraints :=
  { dataset_info := get_dataflow_info dataset_id dfresp
    dimensions := (get_available_constraints availresp).foldl (fun acc p =>
      pyInsert acc p.1 (overview_dim mapping p.1 p.2)) [] }

/-! ## Concrete fixtures used by counterexamples and witnesses -/

/-- A minimal valid Constraints Document for dataset `"D"` with no
dimension entries. -/
def cnsEmptyD : Constraints :=
  { dataset_info := { id := "D", names := [], structure_reference := none }
    dimensions := [] }

/-- Constraints with a code whose `en` name is the empty string and whose
`it` name is `"Italiano"`. -/
def cnsLabelsA : Constraints :=
  { dataset_info := { id := "D", names := [], structure_reference := none }
    dimensions :=
      [("DIM", { id := "DIM"
                 values := [("C", { name := [("en", some ""), ("it", some "Italiano")] })] })] }

/-- Constraints with a code that has neither an `en` nor an `it` name but
a `default` entry different from the raw code. -/
def cnsLabelsB : Constraints :=
  { dataset_info := { id := "D", names := [], structure_reference := none }
    dimensions :=
      [("DIM", { id := "DIM", values := [("C", { name := [("default", some "X")] })] })] }

/-- Constraints with a nonempty `en` name. -/
def cnsLabelsW : Constraints :=
  { dataset_info := { id := "D", names := [], structure_reference := none }
    dimensions :=
      [("DIM", { id := "DIM"
                 values := [("C", { name := [("en", some "English"), ("it", some "Italiano")] })] })] }

/-- A series whose only observation has the TIME_PERIOD element present
without a `value` attribute, and a numeric `ObsValue`. -/
def elemNullTime : SeriesElem :=
  { seriesKey := none
    obs := [{ timeDim := some none, obsValue := some (some "5") }] }

/-- A series keyed by the pairs (B,1) then (A,2), with one valid
observation. -/
def elemPairsBA : SeriesElem :=
  { seriesKey := some [{ id := some "B", value := some "1" }, { id := some "A", value := some "2" }]
    obs := [{ timeDim := some (some "2020"), obsValue := some (some "1") }] }

/-- The same series with the key pairs in the opposite order. -/
def elemPairsAB : SeriesElem :=
  { seriesKey := some [{ id := some "A", value := some "2" }, { id := some "B", value := some "1" }]
    obs := [{ timeDim := some (some "2020"), obsValue := some (some "1") }] }

/-- A series with one observation whose value text is not numeric. -/
def elemGood : SeriesElem :=
  { seriesKey := none
    obs := [{ timeDim := some (some "2020"), obsValue := some (some "x") }] }

/-- The Series Record the extractor produces from `elemGood`. -/
def sdGood : SeriesData :=
  { dataset_info := { id := "D", names := [], structure_reference := none }
    metadata := []
    observations := [{ time_period := some "2020", value := PVal.str "x" }] }

/-- Lexicographic order on (dimension, code) pairs. -/
def pairLe (p q : String × String) : Bool :=
  if p.1 = q.1 then strLeB p.2 q.2 else strLeB p.1 q.1

/-- Modelled from the spec: the filename the C9 sentence describes, derived
from the dataset id and the SORTED SET of (dimension, code) pairs. This is
the claim-side definition, to be compared with `mkFilename`, which the
source derives from the pairs in insertion order. -/
def specSortedFilename (dataset_id : String) (pairs : List (String × String)) : String :=
  let sp := pairs.dedup.mergeSort pairLe
  "series_" ++
    String.intercalate "_" (("dataset_" ++ dataset_id) :: sp.map (fun p => p.1 ++ "-" ++ p.2)) ++
    ".json"

/-- A data response with a complete structure reference. -/
def dataRespOk : DataResponse :=
  { struct := some { ref := some { agencyID := some "IT1", id := some "DS", version := some "1.0" } } }

/-- A datastructure response whose only dimension lacks the enumeration
reference. -/
def dsRespNoEnum : DSResponse :=
  { dimensions := [{ id := some "DIM", enumRef := none }] }

/-- A datastructure response whose dimension carries a codelist reference
with no agency and no version. -/
def dsRespWithEnum : DSResponse :=
  { dimensions := [{ id := some "DIM", enumRef := some { agencyID := none, id := some "CL", version := none } }] }

/-- A codelist endpoint whose only code lacks the id attribute. -/
def fetchClNoId : Option String → Option String → CLResponse :=
  fun _ _ => { names := [], codes := [{ id := none, names := [], descriptions := [] }] }

/-- An availableconstraint response with one dimension and one code. -/
def availW : AvailResponse :=
  { cubeRegion := some [{ id := some "FREQ", values := [some "A"] }] }

/-- An empty Mapping Document for dataset `"D"`. -/
def mappingW : Mapping :=
  { dataset_id := "D"
    struct := { agency_id := none, structure_id := none, version := none }
    dimensions := [] }

/-- The Series Record the extractor produces from `elemPairsBA` under
`cnsEmptyD`. -/
def sdPairsBA : SeriesData :=
  { dataset_info := { id := "D", names := [], structure_reference := none }
    metadata := [(some "B", { code := some "1", description := some "1" }),
                 (some "A", { code := some "2", description := some "2" })]
    observations := [{ time_period := some "2020", value := PVal.num 1 }] }

/-! ## Helper lemmas -/

theorem pyLookup_pyInsert_self {K V : Type} [DecidableEq K] (m : List (K × V)) (k : K) (v : V) :
    pyLookup (pyInsert m k v) k = some v := by
  induction m with
  | nil => simp [pyInsert, pyLookup]
  | cons p t ih =>
    obtain ⟨k', v'⟩ := p
    by_cases h : k' = k
    · simp [pyInsert, h, pyLookup]
    · simp [pyInsert, h, pyLookup, ih]

theorem pyLookup_pyInsert_other {K V : Type} [DecidableEq K] (m : List (K × V)) (k a : K)
    (v : V) (h : a ≠ k) : pyLookup (pyInsert m k v) a = pyLookup m a := by
  induction m with
  | nil =>
    simp only [pyInsert, pyLookup]
    rw [if_neg (fun hh => h hh.symm)]
  | cons p t ih =>
    obtain ⟨k', v'⟩ := p
    by_cases hk : k' = k
    · subst hk
      simp only [pyInsert, if_pos rfl, pyLookup]
      rw [if_neg (fun hh => h hh.symm), if_neg (fun hh => h hh.symm)]
    · simp only [pyInsert, if_neg hk, pyLookup]
      by_cases ha : k' = a
      · simp [ha]
      · simp [ha, ih]

theorem map_fst_pyInsert {K V : Type} [DecidableEq K] (m : List (K × V)) (k : K) (v : V) :
    (pyInsert m k v).map Prod.fst =
      if k ∈ m.map Prod.fst then m.map Prod.fst else m.map Prod.fst ++ [k] := by
  induction m with
  | nil => simp [pyInsert]
  | cons p t ih =>
    obtain ⟨k', v'⟩ := p
    by_cases h : k' = k
    · simp [pyInsert, h]
    · have hne : ¬k = k' := fun hh => h hh.symm
      simp only [pyInsert, if_neg h, List.map_cons, List.mem_cons, ih]
      by_cases hm : k ∈ t.map Prod.fst
      · simp [hm, hne]
      · simp [hm, hne]

theorem nodup_map_fst_pyInsert {K V : Type} [DecidableEq K] {m : List (K × V)} {k : K}
    {v : V} (h : (m.map Prod.fst).Nodup) : ((pyInsert m k v).map Prod.fst).Nodup := by
  rw [map_fst_pyInsert]
  by_cases hm : k ∈ m.map Prod.fst
  · simpa [hm] using h
  · rw [if_neg hm]
    exact h.append (List.nodup_singleton k)
      (by simpa [List.disjoint_singleton] using hm)

theorem nodup_keys_foldl {A K V : Type} [DecidableEq K]
    (f : List (K × V) → A → List (K × V))
    (hf : ∀ acc x, f acc x = acc ∨ ∃ k v, f acc x = pyInsert acc k v) :
    ∀ (xs : List A) (init : List (K × V)), (init.map Prod.fst).Nodup →
      ((xs.foldl f init).map Prod.fst).Nodup := by
  intro xs
  induction xs with
  | nil => intro init h; exact h
  | cons x t ih =>
    intro init h
    rcases hf init x with hx | ⟨k, v, hx⟩
    · simpa [hx] using ih init h
    · simpa [hx] using ih _ (nodup_map_fst_pyInsert h)

theorem nodup_keys_get_available (r : AvailResponse) :
    ((get_available_constraints r).map Prod.fst).Nodup := by
  unfold get_available_constraints
  cases r.cubeRegion with
  | none => simp
  | some kvs =>
    refine nodup_keys_foldl _ ?_ kvs [] (by simp)
    intro acc kv
    obtain ⟨kid, kvals⟩ := kv
    cases kid with
    | none => exact Or.inl rfl
    | some did =>
      by_cases hd : did = ""
      · exact Or.inl (by simp [hd])
      · exact Or.inr ⟨did,
          kvals.filterMap (fun t =>
            match t with
            | some s => if s ≠ "" then some s else none
            | none => none),
          by simp [hd]⟩

theorem lookup_fold_transform_not_mem {K V W : Type} [DecidableEq K] (F : K → V → W) :
    ∀ (m : List (K × V)) (init : List (K × W)) (a : K), a ∉ m.map Prod.fst →
      pyLookup (m.foldl (fun acc p => pyInsert acc p.1 (F p.1 p.2)) init) a =
        pyLookup init a := by
  intro m
  induction m with
  | nil => intro init a _; rfl
  | cons p t ih =>
    intro init a ha
    simp only [List.map_cons, List.mem_cons] at ha
    push_neg at ha
    simpa [List.foldl_cons] using
      (ih (pyInsert init p.1 (F p.1 p.2)) a ha.2).trans
        (pyLookup_pyInsert_other init p.1 a _ ha.1)

theorem lookup_fold_transform {K V W : Type} [DecidableEq K] (F : K → V → W) :
    ∀ (m : List (K × V)) (init : List (K × W)) (a : K) (b : V),
      (m.map Prod.fst).Nodup → pyLookup m a = some b →
      pyLookup (m.foldl (fun acc p => pyInsert acc p.1 (F p.1 p.2)) init) a =
        some (F a b) := by
  intro m
  induction m with
  | nil => intro init a b _ hl; simp [pyLookup] at hl
  | cons p t ih =>
    intro init a b hnd hl
    obtain ⟨k, v⟩ := p
    simp only [List.map_cons, List.nodup_cons] at hnd
    by_cases hk : k = a
    · subst hk
      simp only [pyLookup, if_pos rfl] at hl
      obtain rfl : v = b := by injection hl
      rw [List.foldl_cons,
        lookup_fold_transform_not_mem F t _ k hnd.1,
        pyLookup_pyInsert_self]
    · simp only [pyLookup, if_neg hk] at hl
      simpa [List.foldl_cons] using ih (pyInsert init k (F k v)) a b hnd.2 hl

theorem lookup_fold_const {K W : Type} [DecidableEq K] (g : K → W) :
    ∀ (vs : List K) (init : List (K × W)) (c : K),
      (c ∈ vs ∨ pyLookup init c = some (g c)) →
      pyLookup (vs.foldl (fun acc v => pyInsert acc v (g v)) init) c = some (g c) := by
  intro vs
  induction vs with
  | nil =>
    intro init c h
    rcases h with h | h
    · cases h
    · exact h
  | cons v t ih =>
    intro init c h
    rw [List.foldl_cons]
    by_cases hv : c = v
    · subst hv
      exact ih _ c (Or.inr (pyLookup_pyInsert_self init c (g c)))
    · rcases h with h | h
      · rcases List.mem_cons.mp h with h' | h'
        · exact absurd h' hv
        · exact ih _ c (Or.inl h')
      · exact ih _ c (Or.inr ((pyLookup_pyInsert_other init v c (g v) hv).trans h))

theorem extractObs_inv {oe : ObsElem} {o : Obs} (h : extractObs oe = some o) :
    ∃ raw : String, raw ≠ "" ∧ oe.obsValue = some (some raw) ∧ o.value = storeValue raw := by
  obtain ⟨td, ov⟩ := oe
  cases td with
  | none =>
    exfalso
    cases ov with
    | none => simp [extractObs] at h
    | some x =>
      cases x with
      | none => simp [extractObs] at h
      | some raw => by_cases hr : raw = "" <;> simp [extractObs, hr] at h
  | some tp =>
    cases ov with
    | none => simp [extractObs] at h
    | some x =>
      cases x with
      | none => simp [extractObs] at h
      | some raw =>
        by_cases hr : raw = ""
        · simp [extractObs, hr] at h
        · have hcomp : extractObs ⟨some tp, some (some raw)⟩
              = some { time_period := tp, value := storeValue raw } := by
            simp [extractObs, hr]
          rw [hcomp] at h
          obtain rfl : ({ time_period := tp, value := storeValue raw } : Obs) = o := by
            injection h
          exact ⟨raw, hr, rfl, rfl⟩

theorem extract_ok_obs {did : String} {cns : Constraints} {e : SeriesElem} {sd : SeriesData}
    (h : extract_series_key did cns e = Except.ok sd) :
    ∀ o ∈ sd.observations, ∃ oe ∈ e.obs, extractObs oe = some o := by
  intro o ho
  simp only [extract_series_key] at h
  cases hko : e.obs.filterMap extractObs with
  | nil =>
    rw [hko] at h
    simp only [List.isEmpty_nil, if_true] at h
    have hobs : sd.observations = [] := by
      cases h
      rfl
    rw [hobs] at ho
    cases ho
  | cons o1 t =>
    rw [hko] at h
    simp only [List.isEmpty_cons, if_false, Bool.false_eq_true, pySortObs] at h
    by_cases hg : (o1 :: t).length ≥ 2 ∧ (o1 :: t).any fun ob => ob.time_period.isNone
    · rw [if_pos hg] at h
      cases h
    · rw [if_neg hg] at h
      have hobs : sd.observations = (o1 :: t).mergeSort (fun a b =>
          strLeB (a.time_period.getD "") (b.time_period.getD "")) := by
        cases h
        rfl
      rw [hobs] at ho
      have hmem : o ∈ o1 :: t := (List.mergeSort_perm (o1 :: t) _).mem_iff.mp ho
      rw [← hko] at hmem
      exact List.mem_filterMap.mp hmem

theorem mem_process_series {did : String} {cns : Constraints} {root : List SeriesElem}
    {f : String} {sd : SeriesData} (h : (f, sd) ∈ process_series did cns root) :
    ∃ e ∈ root, extract_series_key did cns e = Except.ok sd ∧
      sd.observations.isEmpty = false ∧ f = mkFilename did sd.metadata := by
  unfold process_series at h
  rw [List.mem_filterMap] at h
  obtain ⟨e, he, hstep⟩ := h
  refine ⟨e, he, ?_⟩
  cases hex : extract_series_key did cns e with
  | error u => rw [hex] at hstep; cases hstep
  | ok sd' =>
    rw [hex] at hstep
    by_cases hemp : sd'.observations.isEmpty
    · simp only [hemp, if_true] at hstep
      cases hstep
    · simp only [hemp, if_false, Bool.false_eq_true, Option.some.injEq, Prod.mk.injEq] at hstep
      obtain ⟨hf, rfl⟩ := hstep
      exact ⟨rfl, Bool.eq_false_iff.mpr hemp, hf.symm⟩

theorem mkFilename_eq_of_pairs (did : String) (m1 m2 : List (Option String × MetaInfo))
    (h : m1.map (fun p => (p.1, p.2.code)) = m2.map (fun p => (p.1, p.2.code))) :
    mkFilename did m1 = mkFilename did m2 := by
  have h2 : m1.map (fun p => pyShow p.1 ++ "-" ++ pyShow p.2.code)
      = m2.map (fun p => pyShow p.1 ++ "-" ++ pyShow p.2.code) := by
    have e1 := congrArg
      (List.map (fun q : Option String × Option String => pyShow q.1 ++ "-" ++ pyShow q.2)) h
    simpa [List.map_map, Function.comp] using e1
  simp only [mkFilename, h2]

/-! ## Claims -/

/-- C2: for any two distinct dataset ids, constructing the Series
Extractor for one id against a Constraints Document whose
`dataset_info.id` equals the other always raises the integrity error
(modelled by the `ValueError` of `validate_constraints`), and no extractor
is produced, so extraction does not proceed. -/
theorem c2_mismatched_constraints_error (id1 id2 : String) (cns : Constraints)
    (hid : cns.dataset_info.id = id2) (hne : id1 ≠ id2) :
    extractorInit id1 cns = Except.error "Constraints file mismatch" := by
  have h : id1 ≠ cns.dataset_info.id := by rw [hid]; exact hne
  simp [extractorInit, validate_constraints, h]

/-- Witness for C2 at the concrete ids "A" and "D". -/
theorem c2_witness :
    extractorInit "A" cnsEmptyD = Except.error "Constraints file mismatch" :=
  c2_mismatched_constraints_error "A" "D" cnsEmptyD rfl (by decide)

/-- C7: when the CubeRegion is absent from the constraint response the
builder does not throw: the dimension map is empty and the overview still
carries the `dataset_info` block built from the dataflow response. -/
theorem c7_absent_cuberegion_empty_overview (did : String) (dfresp : DataflowResponse)
    (availresp : AvailResponse) (mapping : Mapping)
    (h : availresp.cubeRegion = none) :
    build_constraints_overview did dfresp availresp mapping =
      { dataset_info := get_dataflow_info did dfresp, dimensions := [] } := by
  simp [build_constraints_overview, get_available_constraints, h]

/-- Witness for C7 at a concrete response with no CubeRegion. -/
theorem c7_witness :
    build_constraints_overview "D" { dataflow := none } { cubeRegion := none } mappingW =
      { dataset_info := get_dataflow_info "D" { dataflow := none }, dimensions := [] } :=
  c7_absent_cuberegion_empty_overview "D" { dataflow := none } { cubeRegion := none }
    mappingW rfl

/-- C10: an observation whose `ObsValue` element carries a `value`
attribute equal to the empty string is treated as having no value at all:
the truthiness guard conflates empty with absent, and the observation is
excluded rather than retained with an empty text value. -/
theorem c10_empty_value_excluded (oe : ObsElem) (h : oe.obsValue = some (some "")) :
    extractObs oe = none := by
  obtain ⟨td, ov⟩ := oe
  cases h
  cases td <;> simp [extractObs]

/-- Witness for C10 at a concrete observation element. -/
theorem c10_witness :
    extractObs { timeDim := some (some "2020"), obsValue := some (some "") } = none :=
  c10_empty_value_excluded _ rfl

/-- C1 as stated is false on the code: with name entries for both "en" and
"it" present but the "en" entry empty, the "it" name is returned, not the
"en" name; and with neither present but a "default" entry different from
the raw code, that entry is returned, not the raw code. -/
theorem c1_counterexample :
    get_value_description cnsLabelsA (some "DIM") (some "C") = some "Italiano" ∧
    get_value_description cnsLabelsB (some "DIM") (some "C") = some "X" :=
  ⟨by decide, by decide⟩

/-- C1 (amended): label resolution is total and follows Python truthiness:
the "en" name is returned when present, non-null and nonempty; otherwise
the "it" name under the same condition; otherwise the "default" entry when
its key is present; otherwise the raw code. Unknown dimensions and unknown
codes also degrade to the raw code. -/
theorem c1_label_fallback (cns : Constraints) (concept code : String) :
    (pyLookup cns.dimensions concept = none →
      get_value_description cns (some concept) (some code) = some code)
    ∧ ∀ di, pyLookup cns.dimensions concept = some di →
        ((pyLookup di.values code = none →
            get_value_description cns (some concept) (some code) = some code)
         ∧ ∀ vi, pyLookup di.values code = some vi →
             ((∀ s, (pyLookup vi.name "en").join = some s → s ≠ "" →
                 get_value_description cns (some concept) (some code) = some s)
              ∧ (pyTruthy (pyLookup vi.name "en").join = false →
                  ((∀ s, (pyLookup vi.name "it").join = some s → s ≠ "" →
                      get_value_description cns (some concept) (some code) = some s)
                   ∧ (pyTruthy (pyLookup vi.name "it").join = false →
                       ((∀ v, pyLookup vi.name "default" = some v →
                           get_value_description cns (some concept) (some code) = v)
                        ∧ (pyLookup vi.name "default" = none →
                            get_value_description cns (some concept) (some code) = some code))))))) := by
  refine ⟨?_, ?_⟩
  · intro h
    simp [get_value_description, h]
  · intro di hdi
    refine ⟨?_, ?_⟩
    · intro h
      simp [get_value_description, hdi, h, pyTruthy, pyLookup]
    · intro vi hvi
      refine ⟨?_, ?_⟩
      · intro s hs hne
        simp only [get_value_description, hdi, hvi, hs]
        simp [pyTruthy, hne]
      · intro hen
        refine ⟨?_, ?_⟩
        · intro s hs hne
          simp only [get_value_description, hdi, hvi, hen, hs]
          simp [pyTruthy, hne]
        · intro hit
          refine ⟨?_, ?_⟩
          · intro v hv
            simp only [get_value_description, hdi, hvi, hen, hit, hv]
            simp
          · intro hv
            simp only [get_value_description, hdi, hvi, hen, hit, hv]
            simp

/-- Witness for C1 (amended): a nonempty "en" entry is chosen. -/
theorem c1_witness :
    get_value_description cnsLabelsW (some "DIM") (some "C") = some "English" :=
  ((((c1_label_fallback cnsLabelsW "DIM" "C").2
      { id := "DIM"
        values := [("C", { name := [("en", some "English"), ("it", some "Italiano")] })] }
      (by decide)).2
      { name := [("en", some "English"), ("it", some "Italiano")] }
      (by decide)).1 "English" (by decide) (by decide))

unseal List.merge List.mergeSort in
/-- C3: the code violates the claim. A series whose only observation has
the TIME_PERIOD element present but without a `value` attribute yields a
Series Record whose observation has a missing (null) `time_period`: the
guard checks only that the dict key exists, and the key is set to `None`.
-/
theorem c3_null_time_period_record :
    extract_series_key "D" cnsEmptyD elemNullTime =
      Except.ok
        { dataset_info := { id := "D", names := [], structure_reference := none }
          metadata := []
          observations := [{ time_period := none, value := PVal.num 5 }] } :=
  rfl

unseal List.merge List.mergeSort in
/-- C4: the code violates the claim. The observation with a missing (null)
time period is not dropped, the series is not discarded, and a Series
Record is persisted for it. -/
theorem c4_null_time_series_persisted :
    process_series "D" cnsEmptyD [elemNullTime] =
      [("series_dataset_D.json",
        { dataset_info := { id := "D", names := [], structure_reference := none }
          metadata := []
          observations := [{ time_period := none, value := PVal.num 5 }] })] :=
  rfl

/-- C5: every observation of a produced Series Record comes from a raw
observation with a truthy value text; the stored value is the parsed
number whenever the text parses as a float and the raw text verbatim
otherwise, and non-numeric text never drops the observation. -/
theorem c5_value_parse_or_verbatim (did : String) (cns : Constraints) (e : SeriesElem)
    (sd : SeriesData) (h : extract_series_key did cns e = Except.ok sd) :
    ∀ o ∈ sd.observations, ∃ raw : String, raw ≠ "" ∧
      (∃ oe ∈ e.obs, oe.obsValue = some (some raw)) ∧
      (∀ pv, pyFloatParse raw = some pv → o.value = pv) ∧
      (pyFloatParse raw = none → o.value = PVal.str raw) := by
  intro o ho
  obtain ⟨oe, hoe, hex⟩ := extract_ok_obs h o ho
  obtain ⟨raw, hraw, hov, hval⟩ := extractObs_inv hex
  refine ⟨raw, hraw, ⟨oe, hoe, hov⟩, ?_, ?_⟩
  · intro pv hpv
    rw [hval]
    simp [storeValue, hpv]
  · intro hpv
    rw [hval]
    simp [storeValue, hpv]

unseal List.merge List.mergeSort in
/-- Witness for C5 at a series whose observation text "x" is not numeric. -/
theorem c5_witness :
    ∃ raw : String, raw ≠ "" ∧
      (∃ oe ∈ elemGood.obs, oe.obsValue = some (some raw)) ∧
      (∀ pv, pyFloatParse raw = some pv → (Obs.mk (some "2020") (PVal.str "x")).value = pv) ∧
      (pyFloatParse raw = none →
        (Obs.mk (some "2020") (PVal.str "x")).value = PVal.str raw) :=
  c5_value_parse_or_verbatim "D" cnsEmptyD elemGood sdGood (by rfl)
    (Obs.mk (some "2020") (PVal.str "x")) (by simp [sdGood])

/-- C6 as stated is false on the code: a dimension whose enumeration
reference is absent and a code whose identifier is absent are skipped
silently and `build_mapping` returns a Mapping Document, not a parse
error. -/
theorem c6_counterexample :
    build_mapping "D" dataRespOk dsRespNoEnum (fun _ _ => { names := [], codes := [] }) =
      Except.ok
        { dataset_id := "D"
          struct := { agency_id := some "IT1", structure_id := some "DS", version := some "1.0" }
          dimensions := [] } ∧
    build_mapping "D" dataRespOk dsRespWithEnum fetchClNoId =
      Except.ok
        { dataset_id := "D"
          struct := { agency_id := some "IT1", structure_id := some "DS", version := some "1.0" }
          dimensions := [("DIM",
            { codelist_id := some "CL"
              codelist_agency := some "IT1"
              codelist_version := "1.0"
              codelist_name := []
              codelist_description := []
              values := [] })] } :=
  ⟨rfl, rfl⟩

/-- C6 (amended): the resolver fails with the parse error exactly when the
dataset structure reference is absent (either the Structure element or its
Ref child); an absent dimension enumeration reference or code identifier
never raises, the element is skipped. -/
theorem c6_structure_error_only (did : String) (dresp : DataResponse) (dsresp : DSResponse)
    (fetchCl : Option String → Option String → CLResponse) :
    ((dresp.struct = none ∨ ∃ se, dresp.struct = some se ∧ se.ref = none) →
      ∃ msg, build_mapping did dresp dsresp fetchCl = Except.error msg)
    ∧ (∀ se r, dresp.struct = some se → se.ref = some r →
        ∃ m, build_mapping did dresp dsresp fetchCl = Except.ok m) := by
  constructor
  · rintro (h | ⟨se, hse, href⟩)
    · exact ⟨"Structure element not found in data response",
        by simp [build_mapping, get_structure_from_data, h]⟩
    · exact ⟨"Ref element not found in Structure",
        by simp [build_mapping, get_structure_from_data, hse, href]⟩
  · intro se r hse href
    obtain ⟨st⟩ := dresp
    obtain ⟨rf⟩ := se
    cases hse
    cases href
    exact ⟨_, rfl⟩

/-- Witness for C6 (amended): a data response with no Structure element
errors. -/
theorem c6_witness :
    ∃ msg, build_mapping "D" { struct := none } dsRespNoEnum
      (fun _ _ => { names := [], codes := [] }) = Except.error msg :=
  (c6_structure_error_only "D" { struct := none } dsRespNoEnum
    (fun _ _ => { names := [], codes := [] })).1 (Or.inl rfl)

/-- C8: every (dimension, code) pair of the constraint region appears in
the built overview; its label is the name map looked up in the Mapping
Document, or the synthesized degenerate `{"default": code}` when the
mapping has no entry, and a missing mapping entry never blocks the build.
-/
theorem c8_every_code_labelled (did : String) (dfresp : DataflowResponse)
    (availresp : AvailResponse) (mapping : Mapping) (dim : String)
    (codes : List String) (code : String)
    (hdim : pyLookup (get_available_constraints availresp) dim = some codes)
    (hcode : code ∈ codes) :
    ∃ de : DimEntry,
      pyLookup (build_constraints_overview did dfresp availresp mapping).dimensions dim
        = some de ∧
      pyLookup de.values code = some
        { name :=
            match pyLookup mapping.dimensions dim with
            | some dm =>
              match pyLookup dm.values code with
              | some cv => cv.name
              | none => [("default", some code)]
            | none => [("default", some code)] } := by
  refine ⟨overview_dim mapping dim codes, ?_, ?_⟩
  · unfold build_constraints_overview
    exact lookup_fold_transform (overview_dim mapping) _ [] dim codes
      (nodup_keys_get_available availresp) hdim
  · show pyLookup (overview_dim mapping dim codes).values code
      = some { name := overview_name mapping dim code }
    unfold overview_dim
    exact lookup_fold_const
      (fun v => ({ name := overview_name mapping dim v } : ValueEntry)) codes []
      code (Or.inl hcode)

/-- Witness for C8: a constrained code with no mapping entry receives the
degenerate default label. -/
theorem c8_witness :
    ∃ de : DimEntry,
      pyLookup (build_constraints_overview "D" { dataflow := none } availW mappingW).dimensions
        "FREQ" = some de ∧
      pyLookup de.values "A" = some { name := [("default", some "A")] } :=
  c8_every_code_labelled "D" { dataflow := none } availW mappingW "FREQ" ["A"] "A"
    (by decide) (by decide)

unseal List.merge List.mergeSort in
/-- C9 as stated is false on the code: two series whose (dimension, code)
pair SETS are equal (the spec-side `specSortedFilename` agrees on them)
are persisted under different filenames, because the code joins the pairs
in series-key insertion order, not sorted. -/
theorem c9_counterexample :
    (process_series "D" cnsEmptyD [elemPairsBA]).map Prod.fst
        = ["series_dataset_D_B-1_A-2.json"] ∧
    (process_series "D" cnsEmptyD [elemPairsAB]).map Prod.fst
        = ["series_dataset_D_A-2_B-1.json"] ∧
    specSortedFilename "D" [("B", "1"), ("A", "2")]
        = specSortedFilename "D" [("A", "2"), ("B", "1")] ∧
    ("series_dataset_D_B-1_A-2.json" : String) ≠ "series_dataset_D_A-2_B-1.json" :=
  ⟨rfl, rfl, rfl, by decide⟩

/-- C9 (amended): each kept series is persisted under a filename that is a
deterministic function of the dataset id and the ORDERED SEQUENCE of its
(dimension, code) pairs (series-key insertion order); re-running on
unchanged source data therefore reproduces identical filenames. -/
theorem c9_filename_from_ordered_pairs (did : String) (cns : Constraints)
    (root : List SeriesElem) (f : String) (sd : SeriesData)
    (m2 : List (Option String × MetaInfo))
    (hmem : (f, sd) ∈ process_series did cns root)
    (hpairs : sd.metadata.map (fun p => (p.1, p.2.code))
        = m2.map (fun p => (p.1, p.2.code))) :
    f = mkFilename did m2 := by
  obtain ⟨e, he, hok, hne, hf⟩ := mem_process_series hmem
  rw [hf]
  exact mkFilename_eq_of_pairs did sd.metadata m2 hpairs

unseal List.merge List.mergeSort in
/-- Witness for C9 (amended) at the concrete series `elemPairsBA`. -/
theorem c9_witness :
    ("series_dataset_D_B-1_A-2.json" : String) = mkFilename "D" sdPairsBA.metadata :=
  c9_filename_from_ordered_pairs "D" cnsEmptyD [elemPairsBA]
    "series_dataset_D_B-1_A-2.json" sdPairsBA sdPairsBA.metadata
    (by decide) rfl
